import Mathlib

/-!
# Verification of the voicefront video-generation pipeline

A shallow embedding of the video-generation pipeline of the repository:

* `VideoGenerator.generateVideo` / `validate` / `waitForVideoWithHistory`
  (the orchestrator component),
* `HeyGenService.waitForVideo` (the bounded convenience poll helper),
* `VideoHistoryManager.addVideo` / `updateVideo` (the IndexedDB-backed
  job-history store).

External effects (recorded audio, the transcription provider, the audio
converter, the upload endpoint, the render-submission endpoint and the
status-poll endpoint) are modelled by an environment `Env` that fixes the
outcome of each external interaction; the poll endpoint is a function from
the poll-call index to its response, so a whole response sequence is one
environment.  Every run produces an event trace (`List Event`) recording
remote calls, sleeps, durable-store writes and user-visible messages, so
ordering claims become statements about the trace.
-/

namespace Voicefront

/-- JS truthiness for strings: `a || b` where the empty string is falsy. -/
def jsOr (a b : String) : String := if a = "" then b else a

/-- JS truthiness on optional strings: `a || b` where `undefined`, `null`
and `""` are falsy. -/
def jsOrOpt (a b : Option String) : Option String :=
  match a with
  | some s => if s = "" then b else some s
  | none => b

/-- Substring test on character lists, used to embed the JS
`String.prototype.includes` calls of the CORS check. -/
def subList (n : List Char) : List Char → Bool
  | [] => n.isEmpty
  | c :: t => n.isPrefixOf (c :: t) || subList n t

/-- Embedding of the JS `haystack.includes(needle)`. -/
def strIncludes (haystack needle : String) : Bool :=
  subList needle.data haystack.data

/-! ## The job-history store (src/utils/video-history.js)

`VideoHistoryManager` stores records in an IndexedDB object store with an
auto-incremented primary key `id` and a **unique** index on `videoId`
(created in `init`, line 41 of the source).  We model the object store as a
list of records plus the auto-increment counter and a logical clock for
`createdAt` (the source stamps `new Date().toISOString()`).  `add` on a
record whose `videoId` collides with the unique index fires the request's
`onerror` with a `ConstraintError` and aborts the transaction, leaving the
store unchanged — that platform behaviour is part of the embedded
semantics. -/

/-- One persisted row of the `videos` object store, with the exact fields
built by `VideoHistoryManager.addVideo` (lines 60-72 of the source). -/
structure VideoRecord where
  dbId : Nat
  videoId : String
  videoUrl : Option String
  status : String
  createdAt : Nat
  avatarId : Option String
  avatarName : Option String
  voiceType : Option String
  voiceName : Option String
  transcript : Option String
  duration : Option Nat
  thumbnailUrl : Option String
  deriving DecidableEq, Repr

/-- The state of the IndexedDB `videos` object store. -/
structure Store where
  records : List VideoRecord
  nextId : Nat
  now : Nat
  deriving DecidableEq, Repr

/-- The argument object passed to `addVideo`; fields the caller may omit
are `Option` (JS `undefined`), defaulted by the source with `|| null`. -/
structure VideoData where
  videoId : String
  status : String := ""
  videoUrl : Option String := none
  avatarId : Option String := none
  avatarName : Option String := none
  voiceType : Option String := none
  voiceName : Option String := none
  transcript : Option String := none
  duration : Option Nat := none
  thumbnailUrl : Option String := none
  deriving DecidableEq, Repr

/-- Does the store already hold a record with this `videoId` (the unique
index key)? -/
def hasVideoId (store : Store) (vid : String) : Bool :=
  store.records.any (fun r => r.videoId = vid)

/-- Lookup through the `videoId` index (`index.get` returns the first
match; the unique constraint makes it the only one). -/
def findByVideoId (store : Store) (vid : String) : Option VideoRecord :=
  store.records.find? (fun r => r.videoId = vid)

/-- The record `addVideo` builds from its argument (source lines 60-72):
`status: videoData.status || 'processing'`, every other absent field
defaulted to `null`, `createdAt` stamped at insertion time. -/
def mkVideoRecord (store : Store) (d : VideoData) : VideoRecord :=
  { dbId := store.nextId
    videoId := d.videoId
    videoUrl := d.videoUrl
    status := jsOr d.status "processing"
    createdAt := store.now
    avatarId := d.avatarId
    avatarName := d.avatarName
    voiceType := d.voiceType
    voiceName := d.voiceName
    transcript := d.transcript
    duration := d.duration
    thumbnailUrl := d.thumbnailUrl }

/-- `VideoHistoryManager.addVideo`: `objectStore.add` with a colliding
unique `videoId` index rejects with `ConstraintError` and the aborted
transaction leaves the store untouched; otherwise the row is appended
under a fresh auto-increment key.  Returns the request result (the new
primary key on success) together with the resulting store. -/
def addVideo (store : Store) (d : VideoData) : Except String Nat × Store :=
  if hasVideoId store d.videoId then (.error "ConstraintError", store)
  else
    (.ok store.nextId,
      { records := store.records ++ [mkVideoRecord store d]
        nextId := store.nextId + 1
        now := store.now + 1 })

/-- The update objects passed to `updateVideo` by the poll loop: a field
that is `some` is present on the JS updates object and overwrites the
record field via `Object.assign`. -/
structure UpdateFields where
  status : Option String := none
  videoUrl : Option String := none
  thumbnailUrl : Option String := none
  duration : Option Nat := none
  deriving DecidableEq, Repr

/-- `Object.assign(video, updates)` for the fields the pipeline updates. -/
def applyUpdates (r : VideoRecord) (u : UpdateFields) : VideoRecord :=
  { r with
    status := u.status.getD r.status
    videoUrl := match u.videoUrl with | some v => some v | none => r.videoUrl
    thumbnailUrl := match u.thumbnailUrl with | some v => some v | none => r.thumbnailUrl
    duration := match u.duration with | some v => some v | none => r.duration }

/-- `VideoHistoryManager.updateVideo`: look the record up through the
`videoId` index, reject with `Video not found` when absent, otherwise
`Object.assign` the updates and `put` the row back in place. -/
def updateVideo (store : Store) (vid : String) (u : UpdateFields) :
    Except String Unit × Store :=
  if hasVideoId store vid then
    (.ok (),
      { store with
        records := store.records.map
          (fun r => if r.videoId = vid then applyUpdates r u else r) })
  else (.error "Video not found", store)

/-- The status of the stored record for a job id, if any. -/
def recordStatus (store : Store) (vid : String) : Option String :=
  (findByVideoId store vid).map (fun r => r.status)

/-- The stored `videoUrl` for a job id, if any. -/
def recordVideoUrl (store : Store) (vid : String) : Option (Option String) :=
  (findByVideoId store vid).map (fun r => r.videoUrl)

/-- The stored `thumbnailUrl` for a job id, if any. -/
def recordThumbnailUrl (store : Store) (vid : String) : Option (Option String) :=
  (findByVideoId store vid).map (fun r => r.thumbnailUrl)

/-- The stored `duration` for a job id, if any. -/
def recordDuration (store : Store) (vid : String) : Option (Option Nat) :=
  (findByVideoId store vid).map (fun r => r.duration)

/-! ## External collaborators and the run environment

The orchestrator talks to the recorder, the avatar selector, the character
manager, the voice selector, the transcription client, the audio converter
and the HeyGen client.  Each external interaction's outcome is fixed by an
`Env`; the status-poll endpoint is a function from the index of the poll
call to its response, so one `Env` fixes a whole poll-response sequence. -/

/-- A preset avatar as returned by `avatarSelector.getSelectedAvatar()`;
`avatar_style` and `avatar_name` use `""` for an absent (falsy) field,
matching the source's `||` defaulting. -/
structure Avatar where
  avatar_id : String
  avatar_style : String := ""
  avatar_name : String := ""
  deriving DecidableEq, Repr

/-- A custom character as returned by
`characterManager.getSelectedCharacter()`: a previously-registered remote
asset id plus a user-facing name (`""` when falsy). -/
structure Character where
  heygenId : String
  name : String := ""
  deriving DecidableEq, Repr

/-- The selection returned by `voiceSelector.getSelectedVoice()`: a `type`
tag (`"preset"` or `"custom"`) and, for preset voices, the provider voice
id and display name (`voiceSelection.voice.voice_id` / `.voice_name`). -/
structure VoiceSelection where
  type : String
  voice_id : String := ""
  voice_name : String := ""
  deriving DecidableEq, Repr

/-- The `data` object returned by a successful `heyGen.uploadAsset`. -/
structure UploadedAsset where
  id : String
  deriving DecidableEq, Repr

/-- A status-poll response as seen by `waitForVideoWithHistory` /
`waitForVideo`: either the `data` object of a successful
`heyGen.getVideoStatus` call, or a thrown transport/provider error
carrying its message string. -/
structure StatusResponse where
  status : String
  video_url : String := ""
  thumbnail_url : String := ""
  duration : Nat := 0
  deriving DecidableEq, Repr

/-- The outcome of one `heyGen.getVideoStatus` call. -/
inductive PollResult where
  | ok (s : StatusResponse)
  | err (msg : String)
  deriving DecidableEq, Repr

/-- The environment of one `generateVideo` run: the selections read from
the UI collaborators and the outcome of every external interaction.  The
recorded audio blob is opaque to the orchestrator (only its presence is
tested and its transcription/conversion outcomes appear separately), so it
is modelled by `Option Unit`; likewise the converted WAV blob by `Unit`. -/
structure Env where
  audio : Option Unit
  avatar : Option Avatar
  character : Option Character
  voice : Option VoiceSelection
  transcriptResult : Except String String
  convertResult : Except String Unit
  uploadResult : Except String UploadedAsset
  createResult : Except String String
  pollResponses : Nat → PollResult

/-- The render-time character spec built in `generateVideo` step 2
(source lines 81-98). -/
inductive CharacterConfig where
  | photo (photo_id : String)
  | avatar (avatar_id : String) (avatar_style : String)
  deriving DecidableEq, Repr

/-- The voice config built in `generateVideo` step 1. -/
inductive VoiceConfig where
  | text (voice_id : String)
  | audio (audio_asset_id : String)
  deriving DecidableEq, Repr

/-- Observable events of a run: remote calls, durable-store writes,
sleeps, and user-visible messages (loading-modal text, the validation
`alert`, the final video display). -/
inductive Event where
  | alertShown (msg : String)
  | modalShow (msg : String)
  | modalError (msg : String)
  | transcribeCall
  | convertCall
  | uploadCall
  | createVideoCall (character : Option CharacterConfig) (voice : VoiceConfig)
  | historyAdd (videoId : String) (status : String)
  | pollCall (videoId : String)
  | historyUpdate (videoId : String) (status : String)
  | sleep (ms : Nat)
  | displayVideo (url : String)
  deriving DecidableEq, Repr

/-- Is this event a status-poll call on the render job? -/
def isPollEv : Event → Bool
  | .pollCall _ => true
  | _ => false

/-- Is this event a remote call (to the transcription or render
provider)?  Audio conversion is local and does not count. -/
def isRemoteEv : Event → Bool
  | .transcribeCall => true
  | .uploadCall => true
  | .createVideoCall _ _ => true
  | .pollCall _ => true
  | _ => false

/-- Is this event a durable history update? -/
def isUpdateEv : Event → Bool
  | .historyUpdate _ _ => true
  | _ => false

/-- Is this event a sleep? -/
def isSleepEv : Event → Bool
  | .sleep _ => true
  | _ => false

/-! ## The poll loops -/

/-- The fixed poll interval, `CONFIG.VIDEO.POLL_INTERVAL` (config.js). -/
def POLL_INTERVAL : Nat := 3000

/-- The bounded helper's attempt ceiling, `CONFIG.VIDEO.MAX_POLL_ATTEMPTS`
(config.js). -/
def MAX_POLL_ATTEMPTS : Nat := 200

/-- The message of the terminal-failure error thrown by the poll loops,
also used by `waitForVideoWithHistory`'s catch block as the sentinel that
distinguishes the terminal failure from a transient error. -/
def renderFailedMsg : String := "Video generation failed"

/-- The timeout error message of the bounded `waitForVideo` helper. -/
def timeoutMsg : String := "Video generation timeout"

/-- Result of the indefinite poll loop under a fuel bound: either the
loop finished (resolved or threw) with the resulting store and its event
trace, or the fuel ran out while the loop was still running (the trace so
far is kept so ordering statements cover unfinished runs). -/
inductive WaitResult where
  | done (res : Except String String) (store : Store) (events : List Event)
  | fuelOut (store : Store) (events : List Event)
  deriving Repr

/-- Prefix already-emitted events onto a loop result. -/
def prependEvs (evs : List Event) : WaitResult → WaitResult
  | .done r st e => .done r st (evs ++ e)
  | .fuelOut st e => .fuelOut st (evs ++ e)

/-- The progress text shown on each non-terminal poll
(`Generating video... (Ns)` with `N = attempts * 3`). -/
def progressMsg (attempts : Nat) : String :=
  s!"Generating video... ({attempts * 3}s)"

/-- `VideoGenerator.waitForVideoWithHistory` (source lines 181-233), the
indefinite orchestrator poll loop, embedded with a fuel parameter (one
unit per loop iteration; `fuelOut` means the loop is still running).
Faithful to the source's control flow:

* a successful poll with status `completed` updates the history record
  (status, videoUrl, thumbnailUrl, duration) and resolves with
  `video_url`;
* status `failed` updates the history record (status only) and throws
  the `renderFailedMsg` error;
* any other successful poll shows progress, sleeps `POLL_INTERVAL` and
  retries;
* a thrown error (a transport error from `getVideoStatus`, or a rejected
  history update) is re-thrown when its message equals `renderFailedMsg`
  and otherwise swallowed: sleep `POLL_INTERVAL` and retry.  The source
  discriminates the terminal failure from a transient error *by message
  string equality* (line 223). -/
def waitLoop (poll : Nat → PollResult) (vid : String) :
    Store → Nat → Nat → Nat → WaitResult
  | store, _ci, _att, 0 => .fuelOut store []
  | store, ci, att, fuel + 1 =>
    match poll ci with
    | .err m =>
      if m = renderFailedMsg then .done (.error m) store [.pollCall vid]
      else
        prependEvs [.pollCall vid, .sleep POLL_INTERVAL]
          (waitLoop poll vid store (ci + 1) (att + 1) fuel)
    | .ok s =>
      if s.status = "completed" then
        match updateVideo store vid
            { status := some "completed", videoUrl := some s.video_url,
              thumbnailUrl := some s.thumbnail_url, duration := some s.duration } with
        | (.ok _, st) =>
          .done (.ok s.video_url) st [.pollCall vid, .historyUpdate vid "completed"]
        | (.error _, st) =>
          prependEvs [.pollCall vid, .sleep POLL_INTERVAL]
            (waitLoop poll vid st (ci + 1) (att + 1) fuel)
      else if s.status = "failed" then
        match updateVideo store vid { status := some "failed" } with
        | (.ok _, st) =>
          .done (.error renderFailedMsg) st [.pollCall vid, .historyUpdate vid "failed"]
        | (.error _, st) =>
          prependEvs [.pollCall vid, .sleep POLL_INTERVAL]
            (waitLoop poll vid st (ci + 1) (att + 1) fuel)
      else
        prependEvs [.pollCall vid, .modalShow (progressMsg att), .sleep POLL_INTERVAL]
          (waitLoop poll vid store (ci + 1) (att + 1) fuel)

/-- `HeyGenService.waitForVideo` (source lines 479-498), the bounded
convenience helper, with the remaining-attempt budget as the recursion
measure (`attempts < CONFIG.VIDEO.MAX_POLL_ATTEMPTS` loop guard).  It has
no catch: a transport error propagates out immediately; a non-terminal
status sleeps `POLL_INTERVAL` and retries; exhausting the budget throws
the timeout error. -/
def waitForVideoAux (poll : Nat → PollResult) (vid : String) :
    Nat → Nat → Except String String × List Event
  | _ci, 0 => (.error timeoutMsg, [])
  | ci, n + 1 =>
    match poll ci with
    | .err m => (.error m, [.pollCall vid])
    | .ok s =>
      if s.status = "completed" then (.ok s.video_url, [.pollCall vid])
      else if s.status = "failed" then (.error renderFailedMsg, [.pollCall vid])
      else
        let rest := waitForVideoAux poll vid (ci + 1) n
        (rest.1, .pollCall vid :: .sleep POLL_INTERVAL :: rest.2)

/-- `HeyGenService.waitForVideo` entry point: up to
`MAX_POLL_ATTEMPTS` polls starting at call index 0. -/
def waitForVideo (poll : Nat → PollResult) (vid : String) :
    Except String String × List Event :=
  waitForVideoAux poll vid 0 MAX_POLL_ATTEMPTS

/-! ## The generation pipeline (`VideoGenerator.generateVideo`) -/

/-- The validation error messages of `VideoGenerator.validate`
(source lines 154-175). -/
def audioMissingMsg : String := "Please record your voice first"

/-- Validation message for a missing persona. -/
def personaMissingMsg : String := "Please select an avatar or character"

/-- Validation message for a missing voice selection. -/
def voiceMissingMsg : String := "Please select a voice option"

/-- The distinguishable error raised when the custom-voice upload fails
with a transport/cross-origin error (source line 71). -/
def corsErrorMsg : String :=
  "CORS Error: Cannot upload audio from localhost. Please deploy to a server or use HeyGen API with proper CORS configuration."

/-- The outer catch's fallback when the caught error has a falsy message
(`error.message || 'Failed to generate video'`, source line 150). -/
def genericFailureMsg : String := "Failed to generate video"

/-- `VideoGenerator.validate`: the first failing precondition's message,
or `none` when the request is valid.  Checks, in source order: audio
recorded; an avatar or a character selected; a voice selected. -/
def validate (env : Env) : Option String :=
  if env.audio.isNone then some audioMissingMsg
  else if env.avatar.isNone && env.character.isNone then some personaMissingMsg
  else if env.voice.isNone then some voiceMissingMsg
  else none

/-- The catch block of the custom-voice branch (source lines 68-74): a
caught conversion/upload error whose message contains `fetch` or `CORS`
is replaced by the distinguishable CORS error; any other error is
re-thrown as is. -/
def corsCheck (m : String) : String :=
  if strIncludes m "fetch" || strIncludes m "CORS" then corsErrorMsg else m

/-- Step 1 of `generateVideo` (source lines 45-75): build the voice
config.  Preset: transcribe the audio and use the selected AI voice
(transcription failure propagates unchanged).  Custom (any non-`preset`
type): convert the audio to WAV and upload it; a conversion/upload error
goes through `corsCheck`.  Returns the thrown error or the voice config
plus the transcript (`none` for custom voice), with the emitted events. -/
def voiceStage (env : Env) (vs : VoiceSelection) :
    Except String (VoiceConfig × Option String) × List Event :=
  if vs.type = "preset" then
    match env.transcriptResult with
    | .ok t =>
      (.ok (.text vs.voice_id, some t),
        [.modalShow "Transcribing your voice...", .transcribeCall])
    | .error m =>
      (.error m, [.modalShow "Transcribing your voice...", .transcribeCall])
  else
    match env.convertResult with
    | .error m => (.error (corsCheck m), [.modalShow "Converting audio...", .convertCall])
    | .ok _ =>
      match env.uploadResult with
      | .ok asset =>
        (.ok (.audio asset.id, none),
          [.modalShow "Converting audio...", .convertCall,
            .modalShow "Uploading assets...", .uploadCall])
      | .error m =>
        (.error (corsCheck m),
          [.modalShow "Converting audio...", .convertCall,
            .modalShow "Uploading assets...", .uploadCall])

/-- Step 2 of `generateVideo` (source lines 77-98): resolve the persona
into the render-time character spec and the display name.  A selected
custom character takes the `if (character)` branch — `type: 'photo'` with
its registered remote asset id — and the preset avatar is not consulted;
the preset avatar is used only in the `else if (avatar)` branch.  Returns
`none` only when neither is selected (unreachable after validation). -/
def characterStage (env : Env) : Option CharacterConfig × String :=
  match env.character with
  | some c => (some (.photo c.heygenId), jsOr c.name "Custom Character")
  | none =>
    match env.avatar with
    | some a =>
      (some (.avatar a.avatar_id (jsOr a.avatar_style "normal")),
        jsOr a.avatar_name a.avatar_id)
    | none => (none, "")

/-- The `avatarId` field of the history record (source line 123):
`avatar?.avatar_id || character?.heygenId`. -/
def historyAvatarId (env : Env) : Option String :=
  jsOrOpt (env.avatar.map (fun a => a.avatar_id))
    (env.character.map (fun c => c.heygenId))

/-- The `voiceName` field of the history record (source line 126). -/
def historyVoiceName (vs : VoiceSelection) : String :=
  if vs.type = "preset" then vs.voice_name else "Custom Voice"

/-- The body of `generateVideo`'s try block after validation (source
lines 34-142): voice stage, persona stage, render submission, the
durable `processing` write, the indefinite poll loop, then display.
Result: `some (.ok url)` when the run resolved, `some (.error m)` when an
error was thrown (to be caught by the outer catch), `none` when the fuel
ran out inside the poll loop (run still in flight). -/
def generateVideoBody (env : Env) (vs : VoiceSelection) (store : Store)
    (fuel : Nat) : Option (Except String String) × Store × List Event :=
  match voiceStage env vs with
  | (.error m, evs) => (some (.error m), store, .modalShow "Starting..." :: evs)
  | (.ok (vc, transcript), evs) =>
    let cs := characterStage env
    let evs2 := .modalShow "Starting..." :: evs ++
      [.modalShow "Generating your video...", .createVideoCall cs.1 vc]
    match env.createResult with
    | .error m => (some (.error m), store, evs2)
    | .ok videoId =>
      match addVideo store
          { videoId := videoId, status := "processing",
            avatarId := historyAvatarId env, avatarName := some cs.2,
            voiceType := some vs.type, voiceName := some (historyVoiceName vs),
            transcript := transcript } with
      | (.error m, st) => (some (.error m), st, evs2)
      | (.ok _, st) =>
        let evs3 := evs2 ++ [.historyAdd videoId "processing"]
        match waitLoop env.pollResponses videoId st 0 0 fuel with
        | .fuelOut st2 wevs => (none, st2, evs3 ++ wevs)
        | .done (.error m) st2 wevs => (some (.error m), st2, evs3 ++ wevs)
        | .done (.ok url) st2 wevs =>
          (some (.ok url), st2,
            evs3 ++ wevs ++ [.displayVideo url, .modalShow "Complete! 🎉"])

/-- The outcome of a `generateVideo` run.  The source wraps the whole
body in one try/catch whose handler only shows a message on the loading
modal, so the returned promise itself always resolves: there is no
"rejected" outcome.  `alerted` is the validation path (a blocking
`alert`, then return); `errorShown` is the outer catch
(`loadingModal.showError`); `running` means the poll loop was still
going when the fuel ran out. -/
inductive Outcome where
  | success (url : String)
  | errorShown (msg : String)
  | alerted (msg : String)
  | running
  deriving DecidableEq, Repr

/-- The outer catch's message sanitisation:
`error.message || 'Failed to generate video'`. -/
def sanitizeMsg (m : String) : String := jsOr m genericFailureMsg

/-- `VideoGenerator.generateVideo` (source lines 25-152).  Validation
failure alerts and returns (no remote call, nothing on the loading
modal).  Otherwise the body runs; a thrown error is caught by the outer
handler which shows `error.message || 'Failed to generate video'` on the
loading modal.  The `env.voice = none` inner branch is unreachable when
validation passed (validate checks the voice selection); it is embedded
as the outer catch handling the `TypeError` JS would throw there. -/
def generateVideo (env : Env) (store : Store) (fuel : Nat) :
    Outcome × Store × List Event :=
  match validate env with
  | some m => (.alerted m, store, [.alertShown m])
  | none =>
    match env.voice with
    | none =>
      (.errorShown genericFailureMsg, store,
        [.modalShow "Starting...", .modalError genericFailureMsg])
    | some vs =>
      match generateVideoBody env vs store fuel with
      | (none, st, evs) => (.running, st, evs)
      | (some (.ok url), st, evs) => (.success url, st, evs)
      | (some (.error m), st, evs) =>
        (.errorShown (sanitizeMsg m), st, evs ++ [.modalError (sanitizeMsg m)])

/-! ## Concrete stores, environments and response sequences used as
witnesses and counterexamples -/

/-- A fresh, empty history store. -/
def emptyStore : Store := { records := [], nextId := 1, now := 0 }

/-- A preset avatar selection used in concrete runs. -/
def wAvatar : Avatar := { avatar_id := "av1", avatar_name := "Ava" }

/-- A custom character selection used in concrete runs. -/
def wCharacter : Character := { heygenId := "photo-asset-1", name := "My Char" }

/-- A preset voice selection used in concrete runs. -/
def wPresetVoice : VoiceSelection :=
  { type := "preset", voice_id := "v1", voice_name := "Nice Voice" }

/-- A custom voice selection used in concrete runs. -/
def wCustomVoice : VoiceSelection := { type := "custom" }

/-- A poll endpoint that always reports the job still processing. -/
def processingPoll : Nat → PollResult := fun _ => .ok { status := "processing" }

/-- A poll endpoint that immediately reports the job failed. -/
def failedPoll : Nat → PollResult := fun _ => .ok { status := "failed" }

/-- The transport-error message `getVideoStatus` builds for a non-success
HTTP response (source line 468): the fixed prefix followed by the
response's status text.  Besides these, the only errors `getVideoStatus`
re-throws are fetch-level rejections and response-parsing errors, whose
messages are browser-fixed strings. -/
def getVideoStatusHttpErrMsg (statusText : String) : String :=
  "Failed to get video status: " ++ statusText

/-- The fixed messages browsers use for a fetch-level rejection. -/
def browserFetchErrMsgs : List String :=
  ["Failed to fetch", "NetworkError when attempting to fetch resource.",
    "Load failed"]

/-- A realizable poll sequence: one browser transport error, then the
remote job reports `failed`. -/
def transientThenFailedPoll : Nat → PollResult
  | 0 => .err "Failed to fetch"
  | _ => .ok { status := "failed" }

/-- A valid preset-voice environment whose every external interaction
succeeds (the job completes on the first poll). -/
def envValid : Env :=
  { audio := some (), avatar := some wAvatar, character := none,
    voice := some wPresetVoice,
    transcriptResult := .ok "hello world",
    convertResult := .ok (), uploadResult := .ok { id := "audio-asset-1" },
    createResult := .ok "vid-1",
    pollResponses := fun _ =>
      .ok { status := "completed", video_url := "http://v", thumbnail_url := "http://t",
            duration := 42 } }

/-- The valid environment with the recorded audio missing. -/
def envNoAudio : Env := { envValid with audio := none }

/-- The valid environment with both persona sources missing. -/
def envNoPersona : Env := { envValid with avatar := none, character := none }

/-- The valid environment with the voice selection missing. -/
def envNoVoice : Env := { envValid with voice := none }

/-- A custom-voice environment whose asset upload fails with a browser
transport error. -/
def envCorsUpload : Env :=
  { envValid with
    voice := some wCustomVoice
    uploadResult := .error "TypeError: Failed to fetch" }

/-- The valid environment with both a custom character and a preset
avatar selected. -/
def envBothPersonas : Env := { envValid with character := some wCharacter }

/-- The poll-response sequence of the polling-resilience scenario:
two transport errors, one non-terminal status, then `completed`. -/
def c2seq (m1 m2 url thumb : String) (dur : Nat) : Nat → PollResult
  | 0 => .err m1
  | 1 => .err m2
  | 2 => .ok { status := "processing" }
  | _ => .ok { status := "completed", video_url := url, thumbnail_url := thumb,
               duration := dur }

/-! ## Helper lemmas about the store -/

/-- Applying updates never changes the correlation key. -/
lemma applyUpdates_videoId (r : VideoRecord) (u : UpdateFields) :
    (applyUpdates r u).videoId = r.videoId := rfl

/-- The record list `updateVideo` writes, looked up through the index,
is the looked-up original with the updates applied. -/
lemma find_map_update (vid : String) (u : UpdateFields) :
    ∀ l : List VideoRecord,
      (l.map (fun r => if r.videoId = vid then applyUpdates r u else r)).find?
          (fun r => r.videoId = vid) =
        (l.find? (fun r => r.videoId = vid)).map (fun r => applyUpdates r u) := by
  intro l
  induction l with
  | nil => simp
  | cons h t ih =>
    by_cases hv : h.videoId = vid
    · simp [hv, applyUpdates_videoId]
    · simp [hv, ih]

/-- Index membership agrees with index lookup. -/
lemma hasVideoId_iff_find (store : Store) (vid : String) :
    hasVideoId store vid = true ↔ (findByVideoId store vid).isSome := by
  unfold hasVideoId findByVideoId
  rw [List.find?_isSome, List.any_eq_true]

/-- A present record makes `updateVideo` succeed, and the stored row
afterwards is the original with the updates assigned. -/
lemma findByVideoId_update (store : Store) (vid : String) (u : UpdateFields)
    (hmem : hasVideoId store vid = true) :
    ∃ r, findByVideoId store vid = some r ∧
      (updateVideo store vid u).1 = .ok () ∧
      findByVideoId (updateVideo store vid u).2 vid = some (applyUpdates r u) := by
  obtain ⟨r, hr⟩ := Option.isSome_iff_exists.mp ((hasVideoId_iff_find store vid).mp hmem)
  refine ⟨r, hr, ?_, ?_⟩
  · simp [updateVideo, hmem]
  · simp only [updateVideo, hmem, if_pos]
    unfold findByVideoId at hr ⊢
    simp only [find_map_update, hr, Option.map_some']

/-- A successful status update stores the new status. -/
lemma recordStatus_update (store : Store) (vid : String) (u : UpdateFields)
    (s : String) (hmem : hasVideoId store vid = true) (hu : u.status = some s) :
    recordStatus (updateVideo store vid u).2 vid = some s := by
  obtain ⟨r, _, _, hfind⟩ := findByVideoId_update store vid u hmem
  simp [recordStatus, hfind, applyUpdates, hu]

/-- A successful update with a `videoUrl` field stores that URL. -/
lemma recordVideoUrl_update (store : Store) (vid : String) (u : UpdateFields)
    (v : String) (hmem : hasVideoId store vid = true) (hu : u.videoUrl = some v) :
    recordVideoUrl (updateVideo store vid u).2 vid = some (some v) := by
  obtain ⟨r, _, _, hfind⟩ := findByVideoId_update store vid u hmem
  simp [recordVideoUrl, hfind, applyUpdates, hu]

/-- A successful update with a `thumbnailUrl` field stores it. -/
lemma recordThumbnailUrl_update (store : Store) (vid : String) (u : UpdateFields)
    (v : String) (hmem : hasVideoId store vid = true) (hu : u.thumbnailUrl = some v) :
    recordThumbnailUrl (updateVideo store vid u).2 vid = some (some v) := by
  obtain ⟨r, _, _, hfind⟩ := findByVideoId_update store vid u hmem
  simp [recordThumbnailUrl, hfind, applyUpdates, hu]

/-- A successful update with a `duration` field stores it. -/
lemma recordDuration_update (store : Store) (vid : String) (u : UpdateFields)
    (v : Nat) (hmem : hasVideoId store vid = true) (hu : u.duration = some v) :
    recordDuration (updateVideo store vid u).2 vid = some (some v) := by
  obtain ⟨r, _, _, hfind⟩ := findByVideoId_update store vid u hmem
  simp [recordDuration, hfind, applyUpdates, hu]

/-- Adding a fresh job id appends exactly one record. -/
lemma addVideo_fresh (store : Store) (d : VideoData)
    (h : hasVideoId store d.videoId = false) :
    addVideo store d = (.ok store.nextId,
      { records := store.records ++ [mkVideoRecord store d],
        nextId := store.nextId + 1, now := store.now + 1 }) := by
  simp [addVideo, h]

/-- After a fresh add the id is present in the unique index. -/
lemma hasVideoId_after_add (store : Store) (d : VideoData)
    (h : hasVideoId store d.videoId = false) :
    hasVideoId (addVideo store d).2 d.videoId = true := by
  rw [addVideo_fresh store d h]
  simp [hasVideoId, List.any_append, mkVideoRecord]

/-- Index lookup skips a prefix with no match. -/
lemma find_append_of_none {p : VideoRecord → Bool} {l1 l2 : List VideoRecord}
    (h : l1.find? p = none) : (l1 ++ l2).find? p = l2.find? p := by
  induction l1 with
  | nil => simp
  | cons a t ih =>
    by_cases hp : p a
    · simp [List.find?_cons_of_pos, hp] at h
    · rw [List.find?_cons_of_neg _ hp] at h
      rw [List.cons_append, List.find?_cons_of_neg _ hp]
      exact ih h

/-- The voice stage performs no status poll on the render job. -/
lemma voiceStage_no_poll (env : Env) (vs : VoiceSelection) :
    (voiceStage env vs).2.all (fun e => !isPollEv e) = true := by
  unfold voiceStage
  by_cases hq : vs.type = "preset"
  · rw [if_pos hq]
    cases env.transcriptResult <;> rfl
  · rw [if_neg hq]
    cases env.convertResult with
    | error m => rfl
    | ok u => cases env.uploadResult <;> rfl

/-- The sanitised error message of the outer catch is never empty. -/
lemma sanitizeMsg_ne_empty (m : String) : sanitizeMsg m ≠ "" := by
  by_cases h : m = ""
  · subst h; decide
  · simp [sanitizeMsg, jsOr, h]

/-! ## Helper lemmas about the poll loops -/

/-- A poll response that does not stop the indefinite loop: a successful
poll with a non-terminal status, or a transport error whose message
differs from the terminal-failure sentinel. -/
def nonStopResp : PollResult → Prop
  | .ok s => s.status ≠ "completed" ∧ s.status ≠ "failed"
  | .err m => m ≠ renderFailedMsg

/-- A successful poll response with a non-terminal status. -/
def nonTerminalOk : PollResult → Prop
  | .ok s => s.status ≠ "completed" ∧ s.status ≠ "failed"
  | .err _ => False

/-- No HTTP-failure message of `getVideoStatus` equals the
terminal-failure sentinel: the fixed prefix alone is already longer than
the sentinel. -/
lemma getVideoStatusHttpErrMsg_ne_sentinel (statusText : String) :
    getVideoStatusHttpErrMsg statusText ≠ renderFailedMsg := by
  intro h
  have hlen := congrArg String.length h
  rw [getVideoStatusHttpErrMsg, String.length_append] at hlen
  have h1 : ("Failed to get video status: " : String).length = 28 := rfl
  have h2 : renderFailedMsg.length = 23 := rfl
  omega

/-- No browser fetch-rejection message equals the terminal-failure
sentinel. -/
lemma browserFetchErrMsgs_ne_sentinel :
    ∀ m ∈ browserFetchErrMsgs, m ≠ renderFailedMsg := by decide

/-- Inversion for `prependEvs` producing a finished loop. -/
lemma prependEvs_eq_done {evs : List Event} {w : WaitResult}
    {res : Except String String} {st : Store} {e : List Event}
    (h : prependEvs evs w = .done res st e) :
    ∃ e2, w = .done res st e2 ∧ e = evs ++ e2 := by
  cases w with
  | done r s e2 =>
    simp only [prependEvs, WaitResult.done.injEq] at h
    exact ⟨e2, by simp [h.1, h.2.1], h.2.2.symm⟩
  | fuelOut s e2 => simp [prependEvs] at h

/-- Under sentinel-free transport errors, the indefinite loop finishes
only after some poll call returned a terminal job status. -/
lemma waitLoop_done_terminal (poll : Nat → PollResult) (vid : String)
    (hne : ∀ n m, poll n = .err m → m ≠ renderFailedMsg) :
    ∀ fuel store ci att res st evs,
      waitLoop poll vid store ci att fuel = .done res st evs →
      ∃ k s, poll k = .ok s ∧ (s.status = "completed" ∨ s.status = "failed") := by
  intro fuel
  induction fuel with
  | zero => intro store ci att res st evs h; simp [waitLoop] at h
  | succ f ih =>
    intro store ci att res st evs h
    rw [waitLoop] at h
    cases hp : poll ci with
    | err m =>
      rw [hp] at h
      dsimp only at h
      rw [if_neg (hne ci m hp)] at h
      obtain ⟨e2, h2, -⟩ := prependEvs_eq_done h
      exact ih store (ci + 1) (att + 1) res st e2 h2
    | ok s =>
      rw [hp] at h
      dsimp only at h
      by_cases hc : s.status = "completed"
      · rw [if_pos hc] at h
        rcases hupd : updateVideo store vid
            { status := some "completed", videoUrl := some s.video_url,
              thumbnailUrl := some s.thumbnail_url, duration := some s.duration } with ⟨r, st2⟩
        rw [hupd] at h
        cases r with
        | ok u => exact ⟨ci, s, hp, Or.inl hc⟩
        | error m2 =>
          dsimp only at h
          obtain ⟨e2, h2, -⟩ := prependEvs_eq_done h
          exact ih st2 (ci + 1) (att + 1) res st e2 h2
      · rw [if_neg hc] at h
        by_cases hf : s.status = "failed"
        · rw [if_pos hf] at h
          rcases hupd : updateVideo store vid { status := some "failed" } with ⟨r, st2⟩
          rw [hupd] at h
          cases r with
          | ok u => exact ⟨ci, s, hp, Or.inr hf⟩
          | error m2 =>
            dsimp only at h
            obtain ⟨e2, h2, -⟩ := prependEvs_eq_done h
            exact ih st2 (ci + 1) (att + 1) res st e2 h2
        · rw [if_neg hf] at h
          obtain ⟨e2, h2, -⟩ := prependEvs_eq_done h
          exact ih store (ci + 1) (att + 1) res st e2 h2

/-- A poll call observing `failed` while the history record exists stops
the loop at once: the record is set to `failed`, then the terminal
failure is thrown. -/
lemma waitLoop_failed_step (poll : Nat → PollResult) (vid : String)
    (store : Store) (ci att fuel : Nat) (s : StatusResponse)
    (hp : poll ci = .ok s) (hs : s.status = "failed")
    (hmem : hasVideoId store vid = true) :
    waitLoop poll vid store ci att (fuel + 1) =
      .done (.error renderFailedMsg)
        (updateVideo store vid { status := some "failed" }).2
        [.pollCall vid, .historyUpdate vid "failed"] ∧
    recordStatus (updateVideo store vid { status := some "failed" }).2 vid =
      some "failed" := by
  constructor
  · rw [waitLoop, hp]
    dsimp only
    rw [if_neg (by rw [hs]; decide), if_pos hs]
    obtain ⟨r, -, hok, -⟩ :=
      findByVideoId_update store vid { status := some "failed" } hmem
    rcases hupd : updateVideo store vid { status := some "failed" } with ⟨rr, st2⟩
    rw [hupd] at hok
    dsimp only at hok
    rw [hok]
  · exact recordStatus_update store vid _ "failed" hmem rfl

/-- A poll call observing `completed` while the history record exists
stops the loop at once: the record is updated, then the loop resolves
with the video URL. -/
lemma waitLoop_completed_step (poll : Nat → PollResult) (vid : String)
    (store : Store) (ci att fuel : Nat) (s : StatusResponse)
    (hp : poll ci = .ok s) (hs : s.status = "completed")
    (hmem : hasVideoId store vid = true) :
    waitLoop poll vid store ci att (fuel + 1) =
      .done (.ok s.video_url)
        (updateVideo store vid
          { status := some "completed", videoUrl := some s.video_url,
            thumbnailUrl := some s.thumbnail_url, duration := some s.duration }).2
        [.pollCall vid, .historyUpdate vid "completed"] ∧
    recordStatus (updateVideo store vid
        { status := some "completed", videoUrl := some s.video_url,
          thumbnailUrl := some s.thumbnail_url, duration := some s.duration }).2 vid =
      some "completed" := by
  constructor
  · rw [waitLoop, hp]
    dsimp only
    rw [if_pos hs]
    obtain ⟨r, -, hok, -⟩ :=
      findByVideoId_update store vid
        { status := some "completed", videoUrl := some s.video_url,
          thumbnailUrl := some s.thumbnail_url, duration := some s.duration } hmem
    rcases hupd : updateVideo store vid
        { status := some "completed", videoUrl := some s.video_url,
          thumbnailUrl := some s.thumbnail_url, duration := some s.duration } with ⟨rr, st2⟩
    rw [hupd] at hok
    dsimp only at hok
    rw [hok]
  · exact recordStatus_update store vid _ "completed" hmem rfl

/-- Running the loop up to the first terminal `failed` response: if the
first `k` responses do not stop the loop and the `k`-th reports `failed`
while the record exists, the loop finishes with the terminal failure,
the record status becomes `failed`, and the `failed` history update is in
the trace. -/
lemma waitLoop_reaches_failed (poll : Nat → PollResult) (vid : String) :
    ∀ k fuel ci att store s,
      (∀ j, j < k → nonStopResp (poll (ci + j))) →
      poll (ci + k) = .ok s → s.status = "failed" →
      hasVideoId store vid = true → k < fuel →
      ∃ st evs,
        waitLoop poll vid store ci att fuel = .done (.error renderFailedMsg) st evs ∧
        recordStatus st vid = some "failed" ∧
        Event.historyUpdate vid "failed" ∈ evs := by
  intro k
  induction k with
  | zero =>
    intro fuel ci att store s hpre hk hs hmem hfuel
    cases fuel with
    | zero => omega
    | succ f =>
      rw [Nat.add_zero] at hk
      obtain ⟨heq, hst⟩ :=
        waitLoop_failed_step poll vid store ci att f s hk hs hmem
      exact ⟨_, _, heq, hst, by simp⟩
  | succ n ih =>
    intro fuel ci att store s hpre hk hs hmem hfuel
    cases fuel with
    | zero => omega
    | succ f =>
      have h0 : nonStopResp (poll ci) := by
        have := hpre 0 (Nat.succ_pos n)
        rwa [Nat.add_zero] at this
      have hpre2 : ∀ j, j < n → nonStopResp (poll (ci + 1 + j)) := by
        intro j hj
        have := hpre (j + 1) (by omega)
        rwa [show ci + (j + 1) = ci + 1 + j by omega] at this
      have hk2 : poll (ci + 1 + n) = .ok s := by
        rwa [show ci + 1 + n = ci + (n + 1) by omega]
      obtain ⟨st, evs, heq, hst, hfmem⟩ :=
        ih f (ci + 1) (att + 1) store s hpre2 hk2 hs hmem (by omega)
      cases hp : poll ci with
      | err m =>
        rw [hp] at h0
        refine ⟨st, [.pollCall vid, .sleep POLL_INTERVAL] ++ evs, ?_, hst, ?_⟩
        · rw [waitLoop, hp]
          dsimp only
          rw [if_neg h0, heq]
          rfl
        · simp [hfmem]
      | ok s0 =>
        rw [hp] at h0
        refine ⟨st, [.pollCall vid, .modalShow (progressMsg att), .sleep POLL_INTERVAL] ++ evs,
          ?_, hst, ?_⟩
        · rw [waitLoop, hp]
          dsimp only
          rw [if_neg h0.1, if_neg h0.2, heq]
          rfl
        · simp [hfmem]

/-- On an endpoint that never reports a terminal status the indefinite
loop never finishes, whatever fuel it is given: it has no attempt cap
and cannot time out. -/
lemma waitLoop_no_cap (poll : Nat → PollResult) (vid : String)
    (hnt : ∀ j, nonTerminalOk (poll j)) :
    ∀ fuel store ci att, ∃ st evs,
      waitLoop poll vid store ci att fuel = .fuelOut st evs := by
  intro fuel
  induction fuel with
  | zero => intro store ci att; exact ⟨store, [], rfl⟩
  | succ f ih =>
    intro store ci att
    obtain ⟨st, evs, heq⟩ := ih store (ci + 1) (att + 1)
    cases hp : poll ci with
    | err m => exact absurd (hnt ci) (by rw [hp]; simp [nonTerminalOk])
    | ok s =>
      have h0 := hnt ci
      rw [hp] at h0
      refine ⟨st, [.pollCall vid, .modalShow (progressMsg att), .sleep POLL_INTERVAL] ++ evs, ?_⟩
      rw [waitLoop, hp]
      dsimp only
      rw [if_neg h0.1, if_neg h0.2, heq]
      rfl

/-- The bounded helper issues at most as many polls as its remaining
attempt budget. -/
lemma waitForVideoAux_poll_bound (poll : Nat → PollResult) (vid : String) :
    ∀ n ci, ((waitForVideoAux poll vid ci n).2.filter isPollEv).length ≤ n := by
  intro n
  induction n with
  | zero => intro ci; simp [waitForVideoAux]
  | succ f ih =>
    intro ci
    rw [waitForVideoAux]
    cases poll ci with
    | err m => simp [isPollEv]
    | ok s =>
      dsimp only
      by_cases hc : s.status = "completed"
      · rw [if_pos hc]; simp [isPollEv]
      · rw [if_neg hc]
        by_cases hf : s.status = "failed"
        · rw [if_pos hf]; simp [isPollEv]
        · rw [if_neg hf]
          have h2 := ih (ci + 1)
          simp only [List.filter_cons, isPollEv, if_true, Bool.false_eq_true, if_false,
            List.length_cons]
          omega

/-- Exhausting the bounded budget on non-terminal responses yields the
timeout error. -/
lemma waitForVideoAux_timeout (poll : Nat → PollResult) (vid : String) :
    ∀ n ci, (∀ j, j < n → nonTerminalOk (poll (ci + j))) →
      (waitForVideoAux poll vid ci n).1 = .error timeoutMsg := by
  intro n
  induction n with
  | zero => intro ci hnt; rfl
  | succ f ih =>
    intro ci hnt
    have h0 : nonTerminalOk (poll ci) := by
      have := hnt 0 (Nat.succ_pos f)
      rwa [Nat.add_zero] at this
    rw [waitForVideoAux]
    cases hp : poll ci with
    | err m => rw [hp] at h0; exact absurd h0 (by simp [nonTerminalOk])
    | ok s =>
      rw [hp] at h0
      dsimp only
      rw [if_neg h0.1, if_neg h0.2]
      have hnt2 : ∀ j, j < f → nonTerminalOk (poll (ci + 1 + j)) := by
        intro j hj
        have := hnt (j + 1) (by omega)
        rwa [show ci + (j + 1) = ci + 1 + j by omega] at this
      exact ih (ci + 1) hnt2

/-- Within its budget the bounded helper resolves with the video URL on
the first `completed` response. -/
lemma waitForVideoAux_completed (poll : Nat → PollResult) (vid : String) :
    ∀ k n ci s, k < n → (∀ j, j < k → nonTerminalOk (poll (ci + j))) →
      poll (ci + k) = .ok s → s.status = "completed" →
      (waitForVideoAux poll vid ci n).1 = .ok s.video_url := by
  intro k
  induction k with
  | zero =>
    intro n ci s hn hpre hk hs
    cases n with
    | zero => omega
    | succ f =>
      rw [Nat.add_zero] at hk
      rw [waitForVideoAux, hk]
      dsimp only
      rw [if_pos hs]
  | succ m ih =>
    intro n ci s hn hpre hk hs
    cases n with
    | zero => omega
    | succ f =>
      have h0 : nonTerminalOk (poll ci) := by
        have := hpre 0 (Nat.succ_pos m)
        rwa [Nat.add_zero] at this
      cases hp : poll ci with
      | err m2 => rw [hp] at h0; exact absurd h0 (by simp [nonTerminalOk])
      | ok s0 =>
        rw [hp] at h0
        rw [waitForVideoAux, hp]
        dsimp only
        rw [if_neg h0.1, if_neg h0.2]
        have hpre2 : ∀ j, j < m → nonTerminalOk (poll (ci + 1 + j)) := by
          intro j hj
          have := hpre (j + 1) (by omega)
          rwa [show ci + (j + 1) = ci + 1 + j by omega] at this
        have hk2 : poll (ci + 1 + m) = .ok s := by
          rwa [show ci + 1 + m = ci + (m + 1) by omega]
        exact ih f (ci + 1) s (by omega) hpre2 hk2 hs

/-- Within its budget the bounded helper throws the terminal failure on
the first `failed` response. -/
lemma waitForVideoAux_failed (poll : Nat → PollResult) (vid : String) :
    ∀ k n ci s, k < n → (∀ j, j < k → nonTerminalOk (poll (ci + j))) →
      poll (ci + k) = .ok s → s.status = "failed" →
      (waitForVideoAux poll vid ci n).1 = .error renderFailedMsg := by
  intro k
  induction k with
  | zero =>
    intro n ci s hn hpre hk hs
    cases n with
    | zero => omega
    | succ f =>
      rw [Nat.add_zero] at hk
      rw [waitForVideoAux, hk]
      dsimp only
      rw [if_neg (by rw [hs]; decide), if_pos hs]
  | succ m ih =>
    intro n ci s hn hpre hk hs
    cases n with
    | zero => omega
    | succ f =>
      have h0 : nonTerminalOk (poll ci) := by
        have := hpre 0 (Nat.succ_pos m)
        rwa [Nat.add_zero] at this
      cases hp : poll ci with
      | err m2 => rw [hp] at h0; exact absurd h0 (by simp [nonTerminalOk])
      | ok s0 =>
        rw [hp] at h0
        rw [waitForVideoAux, hp]
        dsimp only
        rw [if_neg h0.1, if_neg h0.2]
        have hpre2 : ∀ j, j < m → nonTerminalOk (poll (ci + 1 + j)) := by
          intro j hj
          have := hpre (j + 1) (by omega)
          rwa [show ci + (j + 1) = ci + 1 + j by omega] at this
        have hk2 : poll (ci + 1 + m) = .ok s := by
          rwa [show ci + 1 + m = ci + (m + 1) by omega]
        exact ih f (ci + 1) s (by omega) hpre2 hk2 hs

/-- Every sleep of the bounded helper lasts the fixed poll interval. -/
lemma waitForVideoAux_sleep (poll : Nat → PollResult) (vid : String) :
    ∀ n ci ms, Event.sleep ms ∈ (waitForVideoAux poll vid ci n).2 →
      ms = POLL_INTERVAL := by
  intro n
  induction n with
  | zero => intro ci ms h; simp [waitForVideoAux] at h
  | succ f ih =>
    intro ci ms h
    rw [waitForVideoAux] at h
    cases hp : poll ci with
    | err m => rw [hp] at h; simp at h
    | ok s =>
      rw [hp] at h
      dsimp only at h
      by_cases hc : s.status = "completed"
      · rw [if_pos hc] at h; simp at h
      · rw [if_neg hc] at h
        by_cases hf : s.status = "failed"
        · rw [if_pos hf] at h; simp at h
        · rw [if_neg hf] at h
          rcases List.mem_cons.mp h with h | h
          · exact absurd h (by simp)
          · rcases List.mem_cons.mp h with h | h
            · exact Event.sleep.inj h
            · exact ih (ci + 1) ms h

/-! ## Helper lemmas about the pipeline -/

/-- The outer catch leaves a non-empty message unchanged. -/
lemma sanitizeMsg_eq_self {m : String} (h : m ≠ "") : sanitizeMsg m = m := by
  simp [sanitizeMsg, jsOr, h]

/-- The submission event, carrying the built character spec, is in every
trace of the body once the voice stage succeeded. -/
lemma body_has_create_event (env : Env) (vs : VoiceSelection) (store : Store)
    (fuel : Nat) (p : VoiceConfig × Option String) (vevs : List Event)
    (hvs : voiceStage env vs = (.ok p, vevs)) :
    Event.createVideoCall (characterStage env).1 p.1 ∈
      (generateVideoBody env vs store fuel).2.2 := by
  obtain ⟨vc, tr⟩ := p
  rw [generateVideoBody, hvs]
  dsimp only
  cases env.createResult with
  | error m => simp
  | ok videoId =>
    dsimp only
    generalize addVideo store _ = pr
    obtain ⟨r, st⟩ := pr
    cases r with
    | error m => simp
    | ok dbId =>
      dsimp only
      generalize waitLoop env.pollResponses videoId st 0 0 fuel = w
      cases w with
      | fuelOut st2 wevs => simp
      | done res st2 wevs => cases res <;> simp

/-- The trace of a validated run extends the trace of its body. -/
lemma generateVideo_trace_extends_body (env : Env) (vs : VoiceSelection)
    (store : Store) (fuel : Nat) (hv : validate env = none)
    (hvoice : env.voice = some vs) :
    ∃ tail, (generateVideo env store fuel).2.2 =
      (generateVideoBody env vs store fuel).2.2 ++ tail := by
  rw [generateVideo, hv]
  dsimp only
  rw [hvoice]
  dsimp only
  rcases generateVideoBody env vs store fuel with ⟨r, st, evs⟩
  match r with
  | none => exact ⟨[], by simp⟩
  | some (.ok url) => exact ⟨[], by simp⟩
  | some (.error m) => exact ⟨[.modalError (sanitizeMsg m)], rfl⟩

/-! ## Claim C5 -/

/-- Claim C5: a `RenderRequest` missing the recorded audio, missing both
persona sources, or missing the voice-mode selection makes `generate`
stop with the corresponding distinct validation message, issuing no
remote call (the trace holds no transcription, upload, submission or
poll event); the three messages are pairwise distinct. -/
theorem c5_validation_no_remote_call (env : Env) (store : Store) (fuel : Nat) :
    (env.audio = none →
      generateVideo env store fuel =
        (.alerted audioMissingMsg, store, [.alertShown audioMissingMsg]) ∧
      (generateVideo env store fuel).2.2.filter isRemoteEv = []) ∧
    (env.audio.isSome → env.avatar = none → env.character = none →
      generateVideo env store fuel =
        (.alerted personaMissingMsg, store, [.alertShown personaMissingMsg]) ∧
      (generateVideo env store fuel).2.2.filter isRemoteEv = []) ∧
    (env.audio.isSome → (env.avatar.isSome ∨ env.character.isSome) → env.voice = none →
      generateVideo env store fuel =
        (.alerted voiceMissingMsg, store, [.alertShown voiceMissingMsg]) ∧
      (generateVideo env store fuel).2.2.filter isRemoteEv = []) ∧
    (audioMissingMsg ≠ personaMissingMsg ∧ audioMissingMsg ≠ voiceMissingMsg ∧
      personaMissingMsg ≠ voiceMissingMsg) := by
  refine ⟨?_, ?_, ?_, by decide⟩
  · intro h
    have hv : validate env = some audioMissingMsg := by simp [validate, h]
    have hg : generateVideo env store fuel =
        (.alerted audioMissingMsg, store, [.alertShown audioMissingMsg]) := by
      rw [generateVideo, hv]
    exact ⟨hg, by rw [hg]; rfl⟩
  · intro ha hav hch
    have hv : validate env = some personaMissingMsg := by
      obtain ⟨u, hu⟩ := Option.isSome_iff_exists.mp ha
      simp [validate, hu, hav, hch]
    have hg : generateVideo env store fuel =
        (.alerted personaMissingMsg, store, [.alertShown personaMissingMsg]) := by
      rw [generateVideo, hv]
    exact ⟨hg, by rw [hg]; rfl⟩
  · intro ha hpers hvo
    have hv : validate env = some voiceMissingMsg := by
      obtain ⟨u, hu⟩ := Option.isSome_iff_exists.mp ha
      rcases hpers with hp | hp
      · obtain ⟨a, haa⟩ := Option.isSome_iff_exists.mp hp
        simp [validate, hu, haa, hvo]
      · obtain ⟨c, hcc⟩ := Option.isSome_iff_exists.mp hp
        simp [validate, hu, hcc, hvo]
    have hg : generateVideo env store fuel =
        (.alerted voiceMissingMsg, store, [.alertShown voiceMissingMsg]) := by
      rw [generateVideo, hv]
    exact ⟨hg, by rw [hg]; rfl⟩

/-- Claim C5 witness: the three concrete invalid requests produce the
three distinct alerts with empty remote-call traces. -/
theorem c5_validation_no_remote_call_witness :
    (generateVideo envNoAudio emptyStore 1).1 = .alerted audioMissingMsg ∧
    (generateVideo envNoPersona emptyStore 1).1 = .alerted personaMissingMsg ∧
    (generateVideo envNoVoice emptyStore 1).1 = .alerted voiceMissingMsg ∧
    (generateVideo envNoAudio emptyStore 1).2.2.filter isRemoteEv = [] := by
  have h1 := (c5_validation_no_remote_call envNoAudio emptyStore 1).1 rfl
  have h2 := (c5_validation_no_remote_call envNoPersona emptyStore 1).2.1 rfl rfl rfl
  have h3 := (c5_validation_no_remote_call envNoVoice emptyStore 1).2.2.1 rfl
    (Or.inl rfl) rfl
  exact ⟨by rw [h1.1], by rw [h2.1], by rw [h3.1], h1.2⟩

/-! ## Claim C6 -/

/-- Claim C6: creating the same remote job id twice fails the second
`add` with the duplicate-key `ConstraintError`, leaves the store exactly
as the first write left it, and the record found under the id is the one
written by the first call. -/
theorem c6_duplicate_create (store : Store) (d1 d2 : VideoData) (st1 : Store)
    (n1 : Nat) (hfresh : hasVideoId store d1.videoId = false)
    (h1 : addVideo store d1 = (.ok n1, st1))
    (hdup : d2.videoId = d1.videoId) :
    addVideo st1 d2 = (.error "ConstraintError", st1) ∧
    st1.records = store.records ++ [mkVideoRecord store d1] ∧
    findByVideoId st1 d1.videoId = some (mkVideoRecord store d1) := by
  have he := addVideo_fresh store d1 hfresh
  rw [he] at h1
  have hst : st1 = ({ records := store.records ++ [mkVideoRecord store d1],
                      nextId := store.nextId + 1,
                      now := store.now + 1 } : Store) :=
    (congrArg Prod.snd h1).symm
  subst hst
  have hnone : store.records.find? (fun r => r.videoId = d1.videoId) = none := by
    rw [List.find?_eq_none]
    intro x hx hxid
    have hany : store.records.any (fun r => r.videoId = d1.videoId) = true :=
      List.any_eq_true.mpr ⟨x, hx, hxid⟩
    rw [hasVideoId] at hfresh
    rw [hany] at hfresh
    cases hfresh
  refine ⟨?_, rfl, ?_⟩
  · have hmem : hasVideoId
        ({ records := store.records ++ [mkVideoRecord store d1],
           nextId := store.nextId + 1,
           now := store.now + 1 } : Store)
        d2.videoId = true := by
      rw [hdup]
      simp [hasVideoId, List.any_append, mkVideoRecord]
    rw [addVideo, hmem]
    rw [if_pos rfl]
  · unfold findByVideoId
    dsimp only
    rw [find_append_of_none hnone]
    simp [mkVideoRecord]

/-- Claim C6 witness: concretely, adding `vid-1` twice to a fresh store
rejects the second write and keeps the first record. -/
theorem c6_duplicate_create_witness :
    addVideo (addVideo emptyStore { videoId := "vid-1" }).2
        { videoId := "vid-1", status := "failed" } =
      (.error "ConstraintError", (addVideo emptyStore { videoId := "vid-1" }).2) ∧
    ((addVideo emptyStore { videoId := "vid-1" }).2).records =
      emptyStore.records ++ [mkVideoRecord emptyStore { videoId := "vid-1" }] ∧
    findByVideoId (addVideo emptyStore { videoId := "vid-1" }).2
        ({ videoId := "vid-1" } : VideoData).videoId =
      some (mkVideoRecord emptyStore { videoId := "vid-1" }) :=
  c6_duplicate_create emptyStore { videoId := "vid-1" }
    { videoId := "vid-1", status := "failed" }
    (addVideo emptyStore { videoId := "vid-1" }).2 1 (by decide) rfl rfl

/-! ## Claim C7 -/

/-- Claim C7: in the custom-voice branch an upload failure whose message
marks a cross-origin/transport error (it contains `fetch` or `CORS`, as
real browser transport failures do) is surfaced as the distinguishable
CORS-error message — not as the raw upload error and not as the generic
failure message — while a non-transport upload failure propagates its own
message. -/
theorem c7_transport_blocked (env : Env) (store : Store) (fuel : Nat)
    (vs : VoiceSelection) (m : String)
    (hv : validate env = none) (hvs : env.voice = some vs)
    (htype : vs.type ≠ "preset")
    (hconv : env.convertResult = .ok ())
    (hup : env.uploadResult = .error m) :
    (strIncludes m "fetch" = true ∨ strIncludes m "CORS" = true →
      (generateVideo env store fuel).1 = .errorShown corsErrorMsg) ∧
    (strIncludes m "fetch" = false → strIncludes m "CORS" = false →
      (generateVideo env store fuel).1 = .errorShown (sanitizeMsg m)) ∧
    corsErrorMsg ≠ genericFailureMsg := by
  have hstage : ∀ msg, corsCheck m = msg →
      voiceStage env vs = (.error msg,
        [.modalShow "Converting audio...", .convertCall,
          .modalShow "Uploading assets...", .uploadCall]) := by
    intro msg hmsg
    rw [voiceStage, if_neg htype, hconv]
    dsimp only
    rw [hup]
    dsimp only
    rw [hmsg]
  have hrun : ∀ msg, corsCheck m = msg →
      (generateVideo env store fuel).1 = .errorShown (sanitizeMsg msg) := by
    intro msg hmsg
    rw [generateVideo, hv]
    dsimp only
    rw [hvs]
    dsimp only
    rw [generateVideoBody, hstage msg hmsg]
  refine ⟨?_, ?_, by decide⟩
  · intro hcors
    have hmsg : corsCheck m = corsErrorMsg := by
      rcases hcors with h | h <;> simp [corsCheck, h]
    have := hrun corsErrorMsg hmsg
    rwa [sanitizeMsg_eq_self (by decide)] at this
  · intro hf hc
    exact hrun m (by simp [corsCheck, hf, hc])

/-- Claim C7 witness: a concrete custom-voice run whose upload fails with
a browser transport error surfaces the CORS message. -/
theorem c7_transport_blocked_witness :
    (generateVideo envCorsUpload emptyStore 1).1 = .errorShown corsErrorMsg :=
  (c7_transport_blocked envCorsUpload emptyStore 1
    wCustomVoice "TypeError: Failed to fetch" rfl rfl (by decide) rfl rfl).1
    (Or.inl (by decide))

/-! ## Claim C10 -/

/-- Claim C10: when a custom character is selected the render-job
character spec is built from it — `type: photo` with its registered
remote asset id — whatever the preset-avatar selection is (it is
silently ignored, and the submission event of any validated run carries
the photo spec); the preset avatar is used only when no custom character
is selected. -/
theorem c10_character_precedence (env : Env) :
    (∀ c, env.character = some c →
      characterStage env = (some (.photo c.heygenId), jsOr c.name "Custom Character") ∧
      (∀ av, characterStage { env with avatar := av } = characterStage env) ∧
      (∀ vs p vevs store fuel, validate env = none → env.voice = some vs →
        voiceStage env vs = (.ok p, vevs) →
        Event.createVideoCall (some (.photo c.heygenId)) p.1 ∈
          (generateVideo env store fuel).2.2)) ∧
    (∀ a, env.character = none → env.avatar = some a →
      characterStage env =
        (some (.avatar a.avatar_id (jsOr a.avatar_style "normal")),
          jsOr a.avatar_name a.avatar_id)) := by
  constructor
  · intro c hc
    have hcs : characterStage env =
        (some (.photo c.heygenId), jsOr c.name "Custom Character") := by
      rw [characterStage, hc]
    refine ⟨hcs, ?_, ?_⟩
    · intro av
      rw [hcs, characterStage]
      rw [show ({ env with avatar := av } : Env).character = some c from hc]
    · intro vs p vevs store fuel hv hvoice hvs
      obtain ⟨tail, htr⟩ :=
        generateVideo_trace_extends_body env vs store fuel hv hvoice
      rw [htr]
      apply List.mem_append_left
      have := body_has_create_event env vs store fuel p vevs hvs
      rwa [hcs] at this
  · intro a hc ha
    rw [characterStage, hc, ha]

/-- Claim C10 witness: with both a custom character and a preset avatar
selected, the submitted character spec is the photo spec of the custom
character, and a concrete run's submission event carries it. -/
theorem c10_character_precedence_witness :
    characterStage envBothPersonas =
      (some (.photo wCharacter.heygenId), jsOr wCharacter.name "Custom Character") ∧
    Event.createVideoCall (some (.photo wCharacter.heygenId))
        (.text wPresetVoice.voice_id) ∈
      (generateVideo envBothPersonas emptyStore 1).2.2 := by
  have h := (c10_character_precedence envBothPersonas).1 wCharacter rfl
  exact ⟨h.1, h.2.2 wPresetVoice (.text wPresetVoice.voice_id, some "hello world")
    [.modalShow "Transcribing your voice...", .transcribeCall]
    emptyStore 1 rfl rfl rfl⟩

/-! ## Claim C2 -/

/-- Claim C2: for the poll-response sequence
[network-error, network-error, processing, completed], the indefinite
poll loop retries through both transport errors, sleeping the fixed
3-second interval before every retry, resolves with the completed
result's video URL, and performs exactly one history-store update — the
one setting the record to `completed` with resultUrl, thumbnailUrl and
duration. -/
theorem c2_polling_resilience (m1 m2 url thumb : String) (dur : Nat)
    (vid : String) (store : Store) (f : Nat)
    (h1 : m1 ≠ renderFailedMsg) (h2 : m2 ≠ renderFailedMsg)
    (hmem : hasVideoId store vid = true) :
    ∃ st evs,
      waitLoop (c2seq m1 m2 url thumb dur) vid store 0 0 (f + 4) =
        .done (.ok url) st evs ∧
      evs = [.pollCall vid, .sleep POLL_INTERVAL,
        .pollCall vid, .sleep POLL_INTERVAL,
        .pollCall vid, .modalShow (progressMsg 2), .sleep POLL_INTERVAL,
        .pollCall vid, .historyUpdate vid "completed"] ∧
      evs.filter isUpdateEv = [.historyUpdate vid "completed"] ∧
      evs.filter isSleepEv = [.sleep 3000, .sleep 3000, .sleep 3000] ∧
      recordStatus st vid = some "completed" ∧
      recordVideoUrl st vid = some (some url) ∧
      recordThumbnailUrl st vid = some (some thumb) ∧
      recordDuration st vid = some (some dur) := by
  have e3 : waitLoop (c2seq m1 m2 url thumb dur) vid store 3 3 (f + 1) =
      .done (.ok url)
        (updateVideo store vid
          { status := some "completed", videoUrl := some url,
            thumbnailUrl := some thumb, duration := some dur }).2
        [.pollCall vid, .historyUpdate vid "completed"] :=
    (waitLoop_completed_step (c2seq m1 m2 url thumb dur) vid store 3 3 f
      { status := "completed", video_url := url, thumbnail_url := thumb,
        duration := dur } rfl rfl hmem).1
  have e2 : waitLoop (c2seq m1 m2 url thumb dur) vid store 2 2 (f + 2) =
      .done (.ok url)
        (updateVideo store vid
          { status := some "completed", videoUrl := some url,
            thumbnailUrl := some thumb, duration := some dur }).2
        ([.pollCall vid, .modalShow (progressMsg 2), .sleep POLL_INTERVAL] ++
          [.pollCall vid, .historyUpdate vid "completed"]) := by
    rw [show f + 2 = (f + 1) + 1 from rfl, waitLoop]
    rw [show c2seq m1 m2 url thumb dur 2 = .ok { status := "processing" } from rfl]
    dsimp only
    rw [if_neg (by decide), if_neg (by decide), e3]
    rfl
  have e1 : waitLoop (c2seq m1 m2 url thumb dur) vid store 1 1 (f + 3) =
      .done (.ok url)
        (updateVideo store vid
          { status := some "completed", videoUrl := some url,
            thumbnailUrl := some thumb, duration := some dur }).2
        ([.pollCall vid, .sleep POLL_INTERVAL] ++
          ([.pollCall vid, .modalShow (progressMsg 2), .sleep POLL_INTERVAL] ++
            [.pollCall vid, .historyUpdate vid "completed"])) := by
    rw [show f + 3 = (f + 2) + 1 from rfl, waitLoop]
    rw [show c2seq m1 m2 url thumb dur 1 = .err m2 from rfl]
    dsimp only
    rw [if_neg h2, e2]
    rfl
  have e0 : waitLoop (c2seq m1 m2 url thumb dur) vid store 0 0 (f + 4) =
      .done (.ok url)
        (updateVideo store vid
          { status := some "completed", videoUrl := some url,
            thumbnailUrl := some thumb, duration := some dur }).2
        ([.pollCall vid, .sleep POLL_INTERVAL] ++
          ([.pollCall vid, .sleep POLL_INTERVAL] ++
            ([.pollCall vid, .modalShow (progressMsg 2), .sleep POLL_INTERVAL] ++
              [.pollCall vid, .historyUpdate vid "completed"]))) := by
    rw [show f + 4 = (f + 3) + 1 from rfl, waitLoop]
    rw [show c2seq m1 m2 url thumb dur 0 = .err m1 from rfl]
    dsimp only
    rw [if_neg h1, e1]
    rfl
  refine ⟨_, _, e0, rfl, rfl, rfl, ?_, ?_, ?_, ?_⟩
  · exact recordStatus_update store vid _ "completed" hmem rfl
  · exact recordVideoUrl_update store vid _ url hmem rfl
  · exact recordThumbnailUrl_update store vid _ thumb hmem rfl
  · exact recordDuration_update store vid _ dur hmem rfl

/-- Claim C2 witness: the scenario at concrete inputs, with the browser
transport-error message, on the store holding the processing record. -/
theorem c2_polling_resilience_witness :
    ∃ st evs,
      waitLoop (c2seq "Failed to fetch" "Failed to fetch" "http://v" "http://t" 42)
        "vid-1" (addVideo emptyStore { videoId := "vid-1" }).2 0 0 4 =
        .done (.ok "http://v") st evs ∧
      evs.filter isUpdateEv = [.historyUpdate "vid-1" "completed"] ∧
      recordStatus st "vid-1" = some "completed" := by
  obtain ⟨st, evs, heq, -, hupd, -, hst, -⟩ :=
    c2_polling_resilience "Failed to fetch" "Failed to fetch" "http://v" "http://t"
      42 "vid-1" (addVideo emptyStore { videoId := "vid-1" }).2 0
      (by decide) (by decide) (by decide)
  exact ⟨st, evs, heq, hupd, hst⟩

/-! ## Claim C3 -/

/-- Claim C3: the indefinite poll loop terminates only when a terminal
remote job status (`completed`/`failed`) is observed; a transient
transport error never terminates the loop and is never treated as a
terminal job failure — at a transport error the loop always sleeps and
retries; and a terminal status is never treated as transient: with the
job's history record present (the orchestrator polls only after the
durable write, cf. C1), an observed `failed` stops the loop at once as
the terminal render failure and an observed `completed` stops it with
the video URL.  The hypothesis `hne` states the property of the
repository's transport layer that no thrown transport error carries
exactly the sentinel message `Video generation failed`: `getVideoStatus`
prefixes HTTP failures with `Failed to get video status: ` and browser
fetch/parse rejections are fixed strings
(`getVideoStatusHttpErrMsg_ne_sentinel`,
`browserFetchErrMsgs_ne_sentinel`); the sentinel is thrown only by the
loop itself after observing status `failed`. -/
theorem c3_loop_termination (poll : Nat → PollResult) (vid : String)
    (hne : ∀ n m, poll n = .err m → m ≠ renderFailedMsg) :
    (∀ fuel store ci att res st evs,
      waitLoop poll vid store ci att fuel = .done res st evs →
      ∃ k s, poll k = .ok s ∧ (s.status = "completed" ∨ s.status = "failed")) ∧
    (∀ store ci att fuel m, poll ci = .err m →
      waitLoop poll vid store ci att (fuel + 1) =
        prependEvs [.pollCall vid, .sleep POLL_INTERVAL]
          (waitLoop poll vid store (ci + 1) (att + 1) fuel)) ∧
    (∀ store ci att fuel s, poll ci = .ok s → s.status = "failed" →
      hasVideoId store vid = true →
      waitLoop poll vid store ci att (fuel + 1) =
        .done (.error renderFailedMsg)
          (updateVideo store vid { status := some "failed" }).2
          [.pollCall vid, .historyUpdate vid "failed"]) ∧
    (∀ store ci att fuel s, poll ci = .ok s → s.status = "completed" →
      hasVideoId store vid = true →
      waitLoop poll vid store ci att (fuel + 1) =
        .done (.ok s.video_url)
          (updateVideo store vid
            { status := some "completed", videoUrl := some s.video_url,
              thumbnailUrl := some s.thumbnail_url, duration := some s.duration }).2
          [.pollCall vid, .historyUpdate vid "completed"]) := by
  refine ⟨waitLoop_done_terminal poll vid hne, ?_, ?_, ?_⟩
  · intro store ci att fuel m hp
    rw [waitLoop, hp]
    dsimp only
    rw [if_neg (hne ci m hp)]
  · intro st ci att fuel s hp hs hmem
    exact (waitLoop_failed_step poll vid st ci att fuel s hp hs hmem).1
  · intro st ci att fuel s hp hs hmem
    exact (waitLoop_completed_step poll vid st ci att fuel s hp hs hmem).1

/-- Claim C3 witness: a concrete realizable sequence — a browser
transport error, then the remote job reports `failed` — on the store
holding the record: the transport error sleeps and retries, and the
terminal failure then stops the loop at once. -/
theorem c3_loop_termination_witness :
    waitLoop transientThenFailedPoll "vid-1"
        (addVideo emptyStore { videoId := "vid-1" }).2 0 0 2 =
      prependEvs [.pollCall "vid-1", .sleep POLL_INTERVAL]
        (waitLoop transientThenFailedPoll "vid-1"
          (addVideo emptyStore { videoId := "vid-1" }).2 1 1 1) ∧
    waitLoop transientThenFailedPoll "vid-1"
        (addVideo emptyStore { videoId := "vid-1" }).2 1 1 1 =
      .done (.error renderFailedMsg)
        (updateVideo (addVideo emptyStore { videoId := "vid-1" }).2 "vid-1"
          { status := some "failed" }).2
        [.pollCall "vid-1", .historyUpdate "vid-1" "failed"] := by
  have hne : ∀ n m, transientThenFailedPoll n = .err m → m ≠ renderFailedMsg := by
    intro n m hp
    cases n with
    | zero =>
      have hp2 : PollResult.err "Failed to fetch" = PollResult.err m := hp
      have h2 : m = "Failed to fetch" := (PollResult.err.inj hp2).symm
      subst h2
      decide
    | succ k => simp [transientThenFailedPoll] at hp
  have h := c3_loop_termination transientThenFailedPoll "vid-1" hne
  exact ⟨h.2.1 (addVideo emptyStore { videoId := "vid-1" }).2 0 0 1
      "Failed to fetch" rfl,
    h.2.2.1 (addVideo emptyStore { videoId := "vid-1" }).2 1 1 0
      { status := "failed" } rfl rfl (by decide)⟩

/-! ## Claim C9 -/

/-- Claim C9 counterexample: a validation failure is not surfaced on the
loading modal.  With no audio recorded the run fails (it does not
succeed), yet no `showError` message ever reaches the loading modal: the
failure is surfaced through the blocking `alert` dialog instead,
contradicting the claim that every failure is surfaced only as a message
on the loading modal. -/
theorem c9_counterexample :
    (generateVideo envNoAudio emptyStore 1).1 = .alerted audioMissingMsg ∧
    (∀ u, (generateVideo envNoAudio emptyStore 1).1 ≠ .success u) ∧
    (∀ m, Event.modalError m ∉ (generateVideo envNoAudio emptyStore 1).2.2) := by
  have htr : (generateVideo envNoAudio emptyStore 1).2.2 =
      [.alertShown audioMissingMsg] := rfl
  refine ⟨rfl, ?_, ?_⟩
  · intro u
    rw [show (generateVideo envNoAudio emptyStore 1).1 =
      .alerted audioMissingMsg from rfl]
    simp
  · intro m
    rw [htr]
    simp

/-- Claim C9 (amended): `generate` never rejects — every run resolves to
an outcome, the whole body being guarded by one catch-all handler — and
every post-validation failure is surfaced as a non-empty human-readable
message on the loading modal; but a validation failure is surfaced via a
blocking alert carrying the validation message, not on the loading
modal. -/
theorem c9_amended_never_rejects (env : Env) (store : Store) (fuel : Nat) :
    (∀ m, validate env = some m →
      generateVideo env store fuel = (.alerted m, store, [.alertShown m])) ∧
    (∀ m, (generateVideo env store fuel).1 = .errorShown m →
      m ≠ "" ∧ Event.modalError m ∈ (generateVideo env store fuel).2.2) := by
  constructor
  · intro m hm
    rw [generateVideo, hm]
  · intro m hm
    cases hv : validate env with
    | some vmsg =>
      rw [generateVideo, hv] at hm
      exact absurd hm (by simp)
    | none =>
      rw [generateVideo, hv] at hm ⊢
      dsimp only at hm ⊢
      cases hvo : env.voice with
      | none =>
        rw [hvo] at hm
        dsimp only at hm ⊢
        have hmm : m = genericFailureMsg := (Outcome.errorShown.inj hm).symm
        subst hmm
        exact ⟨by decide, by simp⟩
      | some vs =>
        rw [hvo] at hm
        dsimp only at hm ⊢
        rcases hb : generateVideoBody env vs store fuel with ⟨r, st, evs⟩
        rw [hb] at hm
        cases r with
        | none => dsimp only at hm; exact absurd hm (by simp)
        | some e =>
          cases e with
          | ok url => dsimp only at hm; exact absurd hm (by simp)
          | error msg =>
            dsimp only at hm ⊢
            have hmm : m = sanitizeMsg msg := (Outcome.errorShown.inj hm).symm
            subst hmm
            exact ⟨sanitizeMsg_ne_empty msg, by simp⟩

/-- Claim C9 (amended) witness: a concrete failed-render run resolves to
a shown modal error with a non-empty message. -/
theorem c9_amended_never_rejects_witness :
    renderFailedMsg ≠ "" ∧
    Event.modalError renderFailedMsg ∈
      (generateVideo { envValid with pollResponses := failedPoll }
        emptyStore 1).2.2 :=
  (c9_amended_never_rejects { envValid with pollResponses := failedPoll }
    emptyStore 1).2 renderFailedMsg rfl

/-! ## Claim C1 -/

/-- For a run that reaches submission on a fresh job id, the body trace
splits at the durable `processing` write: everything before it comes
from the start-up, voice and submission stages. -/
lemma body_trace_decomp (env : Env) (vs : VoiceSelection) (store : Store)
    (fuel : Nat) (vc : VoiceConfig) (tr : Option String) (vevs : List Event)
    (vid : String)
    (hstage : voiceStage env vs = (.ok (vc, tr), vevs))
    (hcreate : env.createResult = .ok vid)
    (hfresh : hasVideoId store vid = false) :
    ∃ rest, (generateVideoBody env vs store fuel).2.2 =
      (.modalShow "Starting..." :: vevs ++
        [.modalShow "Generating your video...",
          .createVideoCall (characterStage env).1 vc]) ++
      .historyAdd vid "processing" :: rest := by
  rw [generateVideoBody, hstage]
  dsimp only
  rw [hcreate]
  dsimp only
  rw [addVideo_fresh store _ hfresh]
  dsimp only
  generalize waitLoop env.pollResponses vid _ 0 0 fuel = w
  cases w with
  | fuelOut st2 wevs => exact ⟨wevs, by simp⟩
  | done res st2 wevs =>
    cases res with
    | ok url =>
      exact ⟨wevs ++ [.displayVideo url, .modalShow "Complete! 🎉"], by simp⟩
    | error m => exact ⟨wevs, by simp⟩

/-- Claim C1: in every generation run whose render submission succeeds
on a fresh job id, the `processing` record write for that id appears in
the trace with every status-poll call strictly after it — no poll event
precedes the durable write. -/
theorem c1_processing_persisted_before_poll (env : Env) (store : Store)
    (fuel : Nat) (vs : VoiceSelection) (vc : VoiceConfig) (tr : Option String)
    (vevs : List Event) (vid : String)
    (hv : validate env = none) (hvoice : env.voice = some vs)
    (hstage : voiceStage env vs = (.ok (vc, tr), vevs))
    (hcreate : env.createResult = .ok vid)
    (hfresh : hasVideoId store vid = false) :
    ∃ pre post,
      (generateVideo env store fuel).2.2 =
        pre ++ .historyAdd vid "processing" :: post ∧
      ∀ e ∈ pre, isPollEv e = false := by
  obtain ⟨tail, htr⟩ :=
    generateVideo_trace_extends_body env vs store fuel hv hvoice
  obtain ⟨rest, hbody⟩ :=
    body_trace_decomp env vs store fuel vc tr vevs vid hstage hcreate hfresh
  refine ⟨.modalShow "Starting..." :: vevs ++
      [.modalShow "Generating your video...",
        .createVideoCall (characterStage env).1 vc],
    rest ++ tail, ?_, ?_⟩
  · rw [htr, hbody]
    simp
  · have hnp := voiceStage_no_poll env vs
    rw [hstage] at hnp
    dsimp only at hnp
    intro e he
    rcases List.mem_cons.mp he with h | h
    · subst h; rfl
    · rcases List.mem_append.mp h with h | h
      · simpa using List.all_eq_true.mp hnp e h
      · rcases List.mem_cons.mp h with h | h
        · subst h; rfl
        · rcases List.mem_cons.mp h with h | h
          · subst h; rfl
          · exact absurd h (List.not_mem_nil e)

/-- Claim C1 witness: the concrete successful run — its trace splits at
the `processing` write with no poll before it. -/
theorem c1_processing_persisted_before_poll_witness :
    ∃ pre post,
      (generateVideo envValid emptyStore 1).2.2 =
        pre ++ .historyAdd "vid-1" "processing" :: post ∧
      ∀ e ∈ pre, isPollEv e = false :=
  c1_processing_persisted_before_poll envValid emptyStore 1 wPresetVoice
    (.text wPresetVoice.voice_id) (some "hello world")
    [.modalShow "Transcribing your voice...", .transcribeCall] "vid-1"
    rfl rfl rfl rfl (by decide)

/-! ## Claim C4 -/

/-- Claim C4: in every run that reaches polling on a fresh job id and
whose poll sequence first turns terminal with status `failed`, the run
surfaces the terminal render failure on the modal, the stored record's
status is `failed` afterwards, and the `failed` history update appears
in the trace strictly before the surfaced error. -/
theorem c4_failed_recorded_before_surfaced (env : Env) (store : Store)
    (fuel : Nat) (vs : VoiceSelection) (vc : VoiceConfig) (tr : Option String)
    (vevs : List Event) (vid : String) (k : Nat) (s : StatusResponse)
    (hv : validate env = none) (hvoice : env.voice = some vs)
    (hstage : voiceStage env vs = (.ok (vc, tr), vevs))
    (hcreate : env.createResult = .ok vid)
    (hfresh : hasVideoId store vid = false)
    (hpre : ∀ j, j < k → nonStopResp (env.pollResponses j))
    (hk : env.pollResponses k = .ok s) (hs : s.status = "failed")
    (hfuel : k < fuel) :
    (generateVideo env store fuel).1 = .errorShown renderFailedMsg ∧
    recordStatus (generateVideo env store fuel).2.1 vid = some "failed" ∧
    ∃ pre, (generateVideo env store fuel).2.2 =
        pre ++ [.modalError renderFailedMsg] ∧
      Event.historyUpdate vid "failed" ∈ pre := by
  have hmemA : hasVideoId (addVideo store
      { videoId := vid, status := "processing",
        avatarId := historyAvatarId env,
        avatarName := some (characterStage env).2,
        voiceType := some vs.type, voiceName := some (historyVoiceName vs),
        transcript := tr }).2 vid = true :=
    hasVideoId_after_add store _ hfresh
  obtain ⟨stL, evsL, hL, hstL, hmemL⟩ :=
    waitLoop_reaches_failed env.pollResponses vid k fuel 0 0
      (addVideo store
        { videoId := vid, status := "processing",
          avatarId := historyAvatarId env,
          avatarName := some (characterStage env).2,
          voiceType := some vs.type, voiceName := some (historyVoiceName vs),
          transcript := tr }).2 s
      (by intro j hj; rw [Nat.zero_add]; exact hpre j hj)
      (by rwa [Nat.zero_add]) hs hmemA hfuel
  have hbody : generateVideoBody env vs store fuel =
      (some (.error renderFailedMsg), stL,
        (.modalShow "Starting..." :: vevs ++
          [.modalShow "Generating your video...",
            .createVideoCall (characterStage env).1 vc] ++
          [.historyAdd vid "processing"]) ++ evsL) := by
    rw [generateVideoBody, hstage]
    dsimp only
    rw [hcreate]
    dsimp only
    rcases ha : addVideo store
        { videoId := vid, status := "processing",
          avatarId := historyAvatarId env,
          avatarName := some (characterStage env).2,
          voiceType := some vs.type, voiceName := some (historyVoiceName vs),
          transcript := tr } with ⟨r, stA⟩
    rw [ha] at hL hmemA
    have hr : r = .ok store.nextId := by
      rw [addVideo_fresh store _ hfresh] at ha
      exact (congrArg Prod.fst ha).symm
    subst hr
    dsimp only
    dsimp only at hL
    rw [hL]
  rw [generateVideo, hv]
  dsimp only
  rw [hvoice]
  dsimp only
  rw [hbody]
  dsimp only
  rw [sanitizeMsg_eq_self (by decide : renderFailedMsg ≠ "")]
  refine ⟨rfl, hstL, ?_⟩
  refine ⟨(.modalShow "Starting..." :: vevs ++
      [.modalShow "Generating your video...",
        .createVideoCall (characterStage env).1 vc] ++
      [.historyAdd vid "processing"]) ++ evsL, rfl, ?_⟩
  simp [hmemL]

/-- Claim C4 witness: the concrete run whose first poll reports `failed`
surfaces the terminal failure after recording it. -/
theorem c4_failed_recorded_before_surfaced_witness :
    (generateVideo { envValid with pollResponses := failedPoll }
      emptyStore 1).1 = .errorShown renderFailedMsg ∧
    recordStatus (generateVideo { envValid with pollResponses := failedPoll }
      emptyStore 1).2.1 "vid-1" = some "failed" ∧
    ∃ pre, (generateVideo { envValid with pollResponses := failedPoll }
        emptyStore 1).2.2 = pre ++ [.modalError renderFailedMsg] ∧
      Event.historyUpdate "vid-1" "failed" ∈ pre :=
  c4_failed_recorded_before_surfaced
    { envValid with pollResponses := failedPoll } emptyStore 1 wPresetVoice
    (.text wPresetVoice.voice_id) (some "hello world")
    [.modalShow "Transcribing your voice...", .transcribeCall] "vid-1" 0
    { status := "failed" } rfl rfl rfl rfl (by decide)
    (by intro j hj; omega) rfl rfl (by decide)

/-! ## Claim C8 -/

/-- Claim C8: the bounded convenience helper has a hard 200-attempt
ceiling at the fixed 3-second interval — it issues at most
`MAX_POLL_ATTEMPTS` polls, fails with the timeout error when no terminal
status shows up within the ceiling, resolves with the video URL on the
first `completed` and throws the terminal failure on the first `failed`
within the ceiling, and every sleep lasts `POLL_INTERVAL`; only this
bounded path can time out — the orchestrator's indefinite loop never
finishes on a stream of non-terminal statuses, whatever fuel it is
given. -/
theorem c8_bounded_wait (poll : Nat → PollResult) (vid : String) :
    MAX_POLL_ATTEMPTS = 200 ∧ POLL_INTERVAL = 3000 ∧
    ((waitForVideo poll vid).2.filter isPollEv).length ≤ MAX_POLL_ATTEMPTS ∧
    ((∀ j, j < MAX_POLL_ATTEMPTS → nonTerminalOk (poll j)) →
      (waitForVideo poll vid).1 = .error timeoutMsg) ∧
    (∀ k s, k < MAX_POLL_ATTEMPTS → (∀ j, j < k → nonTerminalOk (poll j)) →
      poll k = .ok s → s.status = "completed" →
      (waitForVideo poll vid).1 = .ok s.video_url) ∧
    (∀ k s, k < MAX_POLL_ATTEMPTS → (∀ j, j < k → nonTerminalOk (poll j)) →
      poll k = .ok s → s.status = "failed" →
      (waitForVideo poll vid).1 = .error renderFailedMsg) ∧
    (∀ ms, Event.sleep ms ∈ (waitForVideo poll vid).2 → ms = POLL_INTERVAL) ∧
    (∀ store ci att fuel, (∀ j, nonTerminalOk (poll j)) →
      ∃ st evs, waitLoop poll vid store ci att fuel = .fuelOut st evs) := by
  refine ⟨rfl, rfl, waitForVideoAux_poll_bound poll vid MAX_POLL_ATTEMPTS 0,
    ?_, ?_, ?_, waitForVideoAux_sleep poll vid MAX_POLL_ATTEMPTS 0, ?_⟩
  · intro hnt
    exact waitForVideoAux_timeout poll vid MAX_POLL_ATTEMPTS 0
      (by intro j hj; rw [Nat.zero_add]; exact hnt j hj)
  · intro k s hk hpre hpk hs
    exact waitForVideoAux_completed poll vid k MAX_POLL_ATTEMPTS 0 s hk
      (by intro j hj; rw [Nat.zero_add]; exact hpre j hj)
      (by rwa [Nat.zero_add]) hs
  · intro k s hk hpre hpk hs
    exact waitForVideoAux_failed poll vid k MAX_POLL_ATTEMPTS 0 s hk
      (by intro j hj; rw [Nat.zero_add]; exact hpre j hj)
      (by rwa [Nat.zero_add]) hs
  · intro store ci att fuel hnt
    exact waitLoop_no_cap poll vid hnt fuel store ci att

/-- Claim C8 witness: on an always-`processing` endpoint the bounded
helper times out while the indefinite loop is still running after far
more iterations than the ceiling. -/
theorem c8_bounded_wait_witness :
    (waitForVideo processingPoll "vid-1").1 = .error timeoutMsg ∧
    (∃ st evs,
      waitLoop processingPoll "vid-1" emptyStore 0 0 500 = .fuelOut st evs) := by
  have h := c8_bounded_wait processingPoll "vid-1"
  refine ⟨h.2.2.2.1 ?_, h.2.2.2.2.2.2.2 emptyStore 0 0 500 ?_⟩
  · intro j hj
    exact ⟨by decide, by decide⟩
  · intro j
    exact ⟨by decide, by decide⟩

end Voicefront
